import Mathlib

/-!
Verification of the burrito library (a chainable, failure-propagating
wrapper around I/O handles) against its specification.

The embedding mirrors the source files:
* `Io` embeds `src/iomonad.rs` (`enum Io<A, T> { Good(A, T), Bad(io::Error) }`)
  and its capability-gated operations;
* `Burrito` embeds `src/lib.rs` (`pub struct Burrito<A, T>(Io<A, T>)`)
  and its combinators;
* `RealWorld` embeds `src/realworld.rs`;
* `OpenOptions` / `FsFile.from_path` embed `src/constructors.rs`.

The underlying platform I/O (Rust's `Read`, `Write`, `Seek`, `BufRead`
traits and the filesystem) is outside the repository and is treated as an
opaque capability: each trait is modelled as a record of functions on the
handle type, passed explicitly where Rust resolves it implicitly. A handle
operation that can fail returns `Except IoError`; a mutated handle is
returned functionally. Theorems quantify over all capability
implementations, so a result that holds for every implementation and does
not depend on it models "performs no underlying I/O call".
-/

/-- Platform I/O error (`std::io::Error`): a kind plus a descriptive
message. The library adds no error kinds of its own, so the model only
needs the error to be a value that can be carried and compared. -/
structure IoError where
  kind : Nat
  msg : String
deriving DecidableEq, Repr

/-- `std::io::SeekFrom`. -/
inductive SeekFrom where
  | start : Nat → SeekFrom
  | fromEnd : Int → SeekFrom
  | current : Int → SeekFrom
deriving DecidableEq, Repr

/-- The `Read` trait as an opaque capability. `readImpl` takes the handle
and the caller's buffer, and returns the number of bytes read, the buffer
after the call wrote into it, and the handle after the call.
`readToEndImpl` / `readToStringImpl` return the bytes/text appended to an
initially empty accumulator, and the handle after the call. -/
structure ReadCap (T : Type) where
  readImpl : T → List Nat → Except IoError (Nat × List Nat × T)
  readToEndImpl : T → Except IoError (List Nat × T)
  readToStringImpl : T → Except IoError (String × T)

/-- The `Write` trait as an opaque capability. -/
structure WriteCap (T : Type) where
  writeImpl : T → List Nat → Except IoError (Nat × T)
  writeAllImpl : T → List Nat → Except IoError T
  writeFmtImpl : T → String → Except IoError T

/-- The `Seek` trait as an opaque capability. -/
structure SeekCap (T : Type) where
  seekImpl : T → SeekFrom → Except IoError (Nat × T)

/-- The `BufRead` trait as an opaque capability. `consumeImpl` is total
(it returns the updated handle, never an error), mirroring Rust's
`fn consume(&mut self, amt: usize)` whose return type is `()`.
`splitImpl` / `linesImpl` return the sequence of chunks the corresponding
iterator would yield. -/
structure BufReadCap (T : Type) where
  fillBufImpl : T → Except IoError (List Nat × T)
  consumeImpl : T → Nat → T
  readUntilImpl : T → Nat → Except IoError (List Nat × T)
  readLineImpl : T → Except IoError (String × T)
  splitImpl : T → Nat → List (List Nat)
  linesImpl : T → List String

/-- `enum Io<A, T> { Good(A, T), Bad(io::Error) }` from `src/iomonad.rs`. -/
inductive Io (A T : Type) where
  | Good : A → T → Io A T
  | Bad : IoError → Io A T

/-- `Io::read` from `src/iomonad.rs`: allocate `vec![0; n]`, perform one
`r.read(&mut buf)` call, truncate the buffer to the number of bytes the
call reported, and rewrap. -/
def Io.read (rc : ReadCap T) (n : Nat) : Io A T → Io (List Nat) T
  | .Good _ r =>
      match rc.readImpl r (List.replicate n 0) with
      | .ok (k, buf, r') => .Good (buf.take k) r'
      | .error err => .Bad err
  | .Bad err => .Bad err

/-- `Io::read_to_end` from `src/iomonad.rs`. -/
def Io.read_to_end (rc : ReadCap T) : Io A T → Io (List Nat) T
  | .Good _ r =>
      match rc.readToEndImpl r with
      | .ok (buf, r') => .Good buf r'
      | .error err => .Bad err
  | .Bad err => .Bad err

/-- `Io::read_to_string` from `src/iomonad.rs`. -/
def Io.read_to_string (rc : ReadCap T) : Io A T → Io String T
  | .Good _ r =>
      match rc.readToStringImpl r with
      | .ok (buf, r') => .Good buf r'
      | .error err => .Bad err
  | .Bad err => .Bad err

/-- `Io::write` from `src/iomonad.rs`. -/
def Io.write (wc : WriteCap T) (buf : List Nat) : Io A T → Io Nat T
  | .Good _ w =>
      match wc.writeImpl w buf with
      | .ok (n, w') => .Good n w'
      | .error err => .Bad err
  | .Bad err => .Bad err

/-- `Io::write_all` from `src/iomonad.rs`. -/
def Io.write_all (wc : WriteCap T) (buf : List Nat) : Io A T → Io Unit T
  | .Good _ w =>
      match wc.writeAllImpl w buf with
      | .ok w' => .Good () w'
      | .error err => .Bad err
  | .Bad err => .Bad err

/-- `Io::write_fmt` from `src/iomonad.rs` (`fmt::Arguments` modelled as the
formatted text). -/
def Io.write_fmt (wc : WriteCap T) (fmt : String) : Io A T → Io Unit T
  | .Good _ w =>
      match wc.writeFmtImpl w fmt with
      | .ok w' => .Good () w'
      | .error err => .Bad err
  | .Bad err => .Bad err

/-- `Io::seek` from `src/iomonad.rs`. -/
def Io.seek (sc : SeekCap T) (pos : SeekFrom) : Io A T → Io Nat T
  | .Good _ s =>
      match sc.seekImpl s pos with
      | .ok (n, s') => .Good n s'
      | .error err => .Bad err
  | .Bad err => .Bad err

/-- `Io::fill_buf` from `src/iomonad.rs`: the filled bytes are discarded,
only success/failure and the handle are kept. -/
def Io.fill_buf (bc : BufReadCap T) : Io A T → Io Unit T
  | .Good _ r =>
      match bc.fillBufImpl r with
      | .ok (_, r') => .Good () r'
      | .error err => .Bad err
  | .Bad err => .Bad err

/-- `Io::consume` from `src/iomonad.rs`: `r.consume(amt)` cannot fail, so
the `Good` arm unconditionally rewraps as `Good((), r)`. -/
def Io.consume (bc : BufReadCap T) (amt : Nat) : Io A T → Io Unit T
  | .Good _ r => .Good () (bc.consumeImpl r amt)
  | .Bad err => .Bad err

/-- `Io::read_until` from `src/iomonad.rs`. -/
def Io.read_until (bc : BufReadCap T) (byte : Nat) : Io A T → Io (List Nat) T
  | .Good _ r =>
      match bc.readUntilImpl r byte with
      | .ok (buf, r') => .Good buf r'
      | .error err => .Bad err
  | .Bad err => .Bad err

/-- `Io::read_line` from `src/iomonad.rs` (the `BufRead` one). -/
def Io.read_line (bc : BufReadCap T) : Io A T → Io String T
  | .Good _ r =>
      match bc.readLineImpl r with
      | .ok (buf, r') => .Good buf r'
      | .error err => .Bad err
  | .Bad err => .Bad err

/-- `Io::split` from `src/iomonad.rs`: terminal, returns `io::Result`. -/
def Io.split (bc : BufReadCap T) (byte : Nat) : Io A T → Except IoError (List (List Nat))
  | .Good _ r => .ok (bc.splitImpl r byte)
  | .Bad err => .error err

/-- `Io::lines` from `src/iomonad.rs`: terminal, returns `io::Result`. -/
def Io.lines (bc : BufReadCap T) : Io A T → Except IoError (List String)
  | .Good _ r => .ok (bc.linesImpl r)
  | .Bad err => .error err

/-- `pub struct Burrito<A, T>(Io<A, T>)` from `src/lib.rs`. -/
structure Burrito (A T : Type) where
  io : Io A T

/-- `Burrito::wrap` from `src/lib.rs`: wrap an `io::Result<T>`. -/
def Burrito.wrap (inner : Except IoError T) : Burrito Unit T :=
  match inner with
  | .ok handle => ⟨.Good () handle⟩
  | .error err => ⟨.Bad err⟩

/-- `Burrito::wrap_func` from `src/lib.rs`: invoke the constructor inside
the call and wrap its result. -/
def Burrito.wrap_func (f : Unit → Except IoError T) : Burrito Unit T :=
  match f () with
  | .ok handle => ⟨.Good () handle⟩
  | .error err => ⟨.Bad err⟩

/-- `Burrito::and` from `src/lib.rs`. The alternative is an argument
passed by value, not a thunk, mirroring the non-short-circuiting Rust
signature `fn and<B, U>(self, alternative: Burrito<B, U>)`. -/
def Burrito.and (self : Burrito A T) (alternative : Burrito B U) : Burrito B U :=
  match self with
  | ⟨.Good _ _⟩ => alternative
  | ⟨.Bad err⟩ => ⟨.Bad err⟩

/-- `Burrito::and_then` from `src/lib.rs`. -/
def Burrito.and_then (self : Burrito A T) (f : A → Burrito Unit T → Burrito B U) : Burrito B U :=
  match self with
  | ⟨.Good data handle⟩ => f data ⟨.Good () handle⟩
  | ⟨.Bad err⟩ => ⟨.Bad err⟩

/-- `Burrito::or` from `src/lib.rs`. Like `and`, the alternative is passed
by value. -/
def Burrito.or (self : Burrito A T) (alternative : Burrito A T) : Burrito A T :=
  match self with
  | ⟨.Bad _⟩ => alternative
  | _ => self

/-- `Burrito::or_else` from `src/lib.rs`. -/
def Burrito.or_else (self : Burrito A T) (f : IoError → Burrito A T) : Burrito A T :=
  match self with
  | ⟨.Bad err⟩ => f err
  | _ => self

/-- `Burrito::ignore` from `src/lib.rs`. -/
def Burrito.ignore (self : Burrito A T) : Burrito Unit T :=
  match self with
  | ⟨.Good _ handle⟩ => ⟨.Good () handle⟩
  | ⟨.Bad err⟩ => ⟨.Bad err⟩

/-- `Burrito::is_good` from `src/lib.rs`. -/
def Burrito.is_good (self : Burrito A T) : Bool :=
  match self with
  | ⟨.Good _ _⟩ => true
  | ⟨.Bad _⟩ => false

/-- `Burrito::is_bad` from `src/lib.rs`: `!self.is_good()`. -/
def Burrito.is_bad (self : Burrito A T) : Bool := !self.is_good

/-- `Burrito::ok` from `src/lib.rs`. -/
def Burrito.ok (self : Burrito A T) : Except IoError (A × T) :=
  match self with
  | ⟨.Good data handle⟩ => .ok (data, handle)
  | ⟨.Bad err⟩ => .error err

/-- `Burrito::to_data` from `src/lib.rs`. -/
def Burrito.to_data (self : Burrito A T) : Except IoError A :=
  match self with
  | ⟨.Good data _⟩ => .ok data
  | ⟨.Bad err⟩ => .error err

/-- `Burrito::to_handle` from `src/lib.rs`. -/
def Burrito.to_handle (self : Burrito A T) : Except IoError T :=
  match self with
  | ⟨.Good _ handle⟩ => .ok handle
  | ⟨.Bad err⟩ => .error err

/-- Capability-delegating methods from `src/lib.rs`: each simply unwraps
the inner `Io`, applies the corresponding `Io` operation and rewraps. -/
def Burrito.read (rc : ReadCap T) (n : Nat) (self : Burrito A T) : Burrito (List Nat) T :=
  ⟨self.io.read rc n⟩

/-- `Burrito::read_to_end` from `src/lib.rs`. -/
def Burrito.read_to_end (rc : ReadCap T) (self : Burrito A T) : Burrito (List Nat) T :=
  ⟨self.io.read_to_end rc⟩

/-- `Burrito::read_to_string` from `src/lib.rs`. -/
def Burrito.read_to_string (rc : ReadCap T) (self : Burrito A T) : Burrito String T :=
  ⟨self.io.read_to_string rc⟩

/-- `Burrito::write` from `src/lib.rs`. -/
def Burrito.write (wc : WriteCap T) (buf : List Nat) (self : Burrito A T) : Burrito Nat T :=
  ⟨self.io.write wc buf⟩

/-- `Burrito::write_all` from `src/lib.rs`. -/
def Burrito.write_all (wc : WriteCap T) (buf : List Nat) (self : Burrito A T) : Burrito Unit T :=
  ⟨self.io.write_all wc buf⟩

/-- `Burrito::write_fmt` from `src/lib.rs`. -/
def Burrito.write_fmt (wc : WriteCap T) (fmt : String) (self : Burrito A T) : Burrito Unit T :=
  ⟨self.io.write_fmt wc fmt⟩

/-- `Burrito::seek` from `src/lib.rs`. -/
def Burrito.seek (sc : SeekCap T) (pos : SeekFrom) (self : Burrito A T) : Burrito Nat T :=
  ⟨self.io.seek sc pos⟩

/-- `Burrito::fill_buf` from `src/lib.rs`. -/
def Burrito.fill_buf (bc : BufReadCap T) (self : Burrito A T) : Burrito Unit T :=
  ⟨self.io.fill_buf bc⟩

/-- `Burrito::consume` from `src/lib.rs`. -/
def Burrito.consume (bc : BufReadCap T) (amt : Nat) (self : Burrito A T) : Burrito Unit T :=
  ⟨self.io.consume bc amt⟩

/-- `Burrito::read_until` from `src/lib.rs`. -/
def Burrito.read_until (bc : BufReadCap T) (byte : Nat) (self : Burrito A T) : Burrito (List Nat) T :=
  ⟨self.io.read_until bc byte⟩

/-- `Burrito::read_line` (the `BufRead` one) from `src/lib.rs`. -/
def Burrito.read_line (bc : BufReadCap T) (self : Burrito A T) : Burrito String T :=
  ⟨self.io.read_line bc⟩

/-- `Burrito::split` from `src/lib.rs`: terminal, returns `io::Result`. -/
def Burrito.split (bc : BufReadCap T) (byte : Nat) (self : Burrito A T) : Except IoError (List (List Nat)) :=
  self.io.split bc byte

/-- `Burrito::lines` from `src/lib.rs`: terminal, returns `io::Result`. -/
def Burrito.lines (bc : BufReadCap T) (self : Burrito A T) : Except IoError (List String) :=
  self.io.lines bc

/-- Handle to the process's standard input stream (`io::Stdin`), an opaque
process-wide resource; `io::stdin()` hands out the handle and cannot
fail. -/
inductive StdinHandle where
  | mk : StdinHandle
deriving DecidableEq, Repr

/-- Handle to the process's standard output stream (`io::Stdout`). -/
inductive StdoutHandle where
  | mk : StdoutHandle
deriving DecidableEq, Repr

/-- Handle to the process's standard error stream (`io::Stderr`). -/
inductive StderrHandle where
  | mk : StderrHandle
deriving DecidableEq, Repr

/-- `pub struct RealWorld` from `src/realworld.rs`: the bundled
stdin/stdout/stderr triple. -/
structure RealWorld where
  stdin : StdinHandle
  stdout : StdoutHandle
  stderr : StderrHandle
deriving DecidableEq, Repr

/-- `Default for RealWorld` from `src/realworld.rs`: bundle the three
process streams. `io::stdin()` / `io::stdout()` / `io::stderr()` just hand
out the process-wide handles; none of them performs I/O or can fail. -/
def RealWorld.default : RealWorld :=
  { stdin := .mk, stdout := .mk, stderr := .mk }

/-- `Default for Burrito<(), RealWorld>` from `src/lib.rs`:
`Burrito(Good((), RealWorld::default()))`. -/
def Burrito.default : Burrito Unit RealWorld :=
  ⟨.Good () RealWorld.default⟩

/-- `pub fn burrito()` from `src/lib.rs`: `Burrito::default()`. -/
def burrito : Burrito Unit RealWorld := Burrito.default

/-- `std::fs::OpenOptions`: the builder's five flags. `new()` starts with
every flag false. -/
structure OpenOptions where
  readFlag : Bool
  writeFlag : Bool
  appendFlag : Bool
  truncateFlag : Bool
  createFlag : Bool
deriving DecidableEq, Repr

/-- `OpenOptions::new()`. -/
def OpenOptions.new : OpenOptions :=
  { readFlag := false, writeFlag := false, appendFlag := false,
    truncateFlag := false, createFlag := false }

/-- `OpenOptions::read`. -/
def OpenOptions.read (o : OpenOptions) (b : Bool) : OpenOptions :=
  { o with readFlag := b }

/-- `OpenOptions::write`. -/
def OpenOptions.write (o : OpenOptions) (b : Bool) : OpenOptions :=
  { o with writeFlag := b }

/-- `OpenOptions::create`. -/
def OpenOptions.create (o : OpenOptions) (b : Bool) : OpenOptions :=
  { o with createFlag := b }

/-- `FromPath for fs::File` from `src/constructors.rs`:
`fs::OpenOptions::new().read(true).write(true).create(true).open(path)`.
The filesystem's `open` is outside the repository and is passed as the
opaque capability `fs`, taking the assembled options and the path. -/
def FsFile.from_path (fs : OpenOptions → String → Except IoError FileT)
    (path : String) : Except IoError FileT :=
  fs (((OpenOptions.new.read true).write true).create true) path

/-- `Burrito::from_path` from `src/lib.rs`: delegate to the handle type's
`FromPath` implementation (passed as `fp`) and wrap the result. -/
def Burrito.from_path (fp : String → Except IoError T) (path : String) : Burrito Unit T :=
  match fp path with
  | .ok handle => ⟨.Good () handle⟩
  | .error err => ⟨.Bad err⟩

/-- `Burrito::from_addr` from `src/lib.rs`: delegate to the handle type's
`FromAddr` implementation (passed as `fa`) and wrap the result. -/
def Burrito.from_addr (fa : String → Except IoError T) (addr : String) : Burrito Unit T :=
  match fa addr with
  | .ok handle => ⟨.Good () handle⟩
  | .error err => ⟨.Bad err⟩

/-- A mock readable handle that records how many underlying read calls
were made: it holds the bytes still available and a call counter. Its
`read` copies `min n available` bytes into the front of the buffer,
consumes them, and bumps the counter — a lawful `Read` implementation. -/
structure MockReader where
  data : List Nat
  readCalls : Nat
deriving DecidableEq, Repr

/-- The `Read` capability of `MockReader`; every operation bumps the call
counter exactly once. -/
def MockReader.cap : ReadCap MockReader :=
  { readImpl := fun m buf =>
      let k := min buf.length m.data.length
      .ok (k, m.data.take k ++ buf.drop k, ⟨m.data.drop k, m.readCalls + 1⟩)
  , readToEndImpl := fun m => .ok (m.data, ⟨[], m.readCalls + 1⟩)
  , readToStringImpl := fun m => .ok ("", ⟨[], m.readCalls + 1⟩) }

/-- Instrument a `Read` capability to count underlying calls: the handle is
paired with a call counter that every underlying call increments by one. -/
def ReadCap.traced (rc : ReadCap T) : ReadCap (T × Nat) :=
  { readImpl := fun m buf =>
      match rc.readImpl m.1 buf with
      | .ok (k, b, r') => .ok (k, b, (r', m.2 + 1))
      | .error err => .error err
  , readToEndImpl := fun m =>
      match rc.readToEndImpl m.1 with
      | .ok (b, r') => .ok (b, (r', m.2 + 1))
      | .error err => .error err
  , readToStringImpl := fun m =>
      match rc.readToStringImpl m.1 with
      | .ok (s, r') => .ok (s, (r', m.2 + 1))
      | .error err => .error err }

/-- C1. Error-propagation invariant: on a wrapper in the `Bad e` state,
every capability operation (`read`, `read_to_end`, `read_to_string`,
`write`, `write_all`, `write_fmt`, `seek`, `fill_buf`, `consume`,
`read_until`, `read_line`) and every non-recovery combinator (`and`,
`and_then`, `ignore`) returns a new wrapper in the `Bad` state carrying
the identical error `e`. Each equation is quantified over every possible
capability implementation and holds for all of them uniformly, so no
underlying I/O call is consulted: in the `Bad` state there is no handle
for a call to act on. -/
theorem bad_propagation {A B T U : Type}
    (e : IoError) (rc : ReadCap T) (wc : WriteCap T) (sc : SeekCap T)
    (bc : BufReadCap T) (n amt byte : Nat) (buf : List Nat) (fmt : String)
    (pos : SeekFrom) (alt : Burrito B U)
    (f : A → Burrito Unit T → Burrito B U) :
    Burrito.read rc n (⟨.Bad e⟩ : Burrito A T) = ⟨.Bad e⟩
    ∧ Burrito.read_to_end rc (⟨.Bad e⟩ : Burrito A T) = ⟨.Bad e⟩
    ∧ Burrito.read_to_string rc (⟨.Bad e⟩ : Burrito A T) = ⟨.Bad e⟩
    ∧ Burrito.write wc buf (⟨.Bad e⟩ : Burrito A T) = ⟨.Bad e⟩
    ∧ Burrito.write_all wc buf (⟨.Bad e⟩ : Burrito A T) = ⟨.Bad e⟩
    ∧ Burrito.write_fmt wc fmt (⟨.Bad e⟩ : Burrito A T) = ⟨.Bad e⟩
    ∧ Burrito.seek sc pos (⟨.Bad e⟩ : Burrito A T) = ⟨.Bad e⟩
    ∧ Burrito.fill_buf bc (⟨.Bad e⟩ : Burrito A T) = ⟨.Bad e⟩
    ∧ Burrito.consume bc amt (⟨.Bad e⟩ : Burrito A T) = ⟨.Bad e⟩
    ∧ Burrito.read_until bc byte (⟨.Bad e⟩ : Burrito A T) = ⟨.Bad e⟩
    ∧ Burrito.read_line bc (⟨.Bad e⟩ : Burrito A T) = ⟨.Bad e⟩
    ∧ Burrito.and (⟨.Bad e⟩ : Burrito A T) alt = ⟨.Bad e⟩
    ∧ Burrito.and_then (⟨.Bad e⟩ : Burrito A T) f = ⟨.Bad e⟩
    ∧ Burrito.ignore (⟨.Bad e⟩ : Burrito A T) = ⟨.Bad e⟩ :=
  ⟨rfl, rfl, rfl, rfl, rfl, rfl, rfl, rfl, rfl, rfl, rfl, rfl, rfl, rfl⟩

/-- C2. `and_then` on `Good(v, h)` is exactly one application of `f` to
the last value `v` and a fresh `Good` wrapper around the same handle `h`
with the unit value, returning whatever `f` produces; on `Bad e` the
result is `Bad e` for every `f`, so `f` is never consulted. -/
theorem and_then_spec {A B T U : Type} (v : A) (h : T) (e : IoError)
    (f g : A → Burrito Unit T → Burrito B U) :
    Burrito.and_then (⟨.Good v h⟩ : Burrito A T) f = f v ⟨.Good () h⟩
    ∧ Burrito.and_then (⟨.Bad e⟩ : Burrito A T) f = ⟨.Bad e⟩
    ∧ Burrito.and_then (⟨.Bad e⟩ : Burrito A T) f
        = Burrito.and_then (⟨.Bad e⟩ : Burrito A T) g :=
  ⟨rfl, rfl, rfl⟩

/-- C3. Short-read correctness of `read(n)`: for any `Read` implementation
whose call on the freshly allocated n-byte buffer reports `k` bytes read
(with the `Read` contract `k ≤ n` and an unchanged buffer length), the
result is `Good` with the buffer truncated to exactly those `k` bytes —
length exactly `k`, no padding — and the instrumented capability shows the
operation performs exactly one underlying read call (the counter goes from
`c` to `c + 1`). -/
theorem read_spec {A T : Type} (rc : ReadCap T) (a : A) (r : T) (n k : Nat)
    (buf' : List Nat) (r' : T) (c : Nat)
    (hcall : rc.readImpl r (List.replicate n 0) = .ok (k, buf', r'))
    (hk : k ≤ n) (hlen : buf'.length = n) :
    Io.read rc n (.Good a r) = .Good (buf'.take k) r'
    ∧ (buf'.take k).length = k
    ∧ Io.read rc.traced n (.Good a (r, c)) = .Good (buf'.take k) (r', c + 1) := by
  refine ⟨?_, ?_, ?_⟩
  · simp [Io.read, hcall]
  · simp [hlen]
    omega
  · simp [Io.read, ReadCap.traced, hcall]

/-- C3 witness: a mock reader holding the two bytes `[7, 8]` answers a
`read(3)` with a short read of exactly those two bytes, no padding and no
error, and its call counter records exactly one underlying call. -/
theorem read_spec_witness :
    Io.read MockReader.cap 3 (.Good () (⟨[7, 8], 0⟩ : MockReader))
      = .Good ([7, 8, 0].take 2) (⟨[], 1⟩ : MockReader)
    ∧ ([7, 8, 0].take 2).length = 2
    ∧ Io.read MockReader.cap.traced 3 (.Good () ((⟨[7, 8], 0⟩ : MockReader), 0))
      = .Good ([7, 8, 0].take 2) ((⟨[], 1⟩ : MockReader), 1) :=
  read_spec MockReader.cap () ⟨[7, 8], 0⟩ 3 2 [7, 8, 0] ⟨[], 1⟩ 0 rfl
    (by decide) (by decide)

/-- C4. Terminal-extraction round trip: on `Good(v, h)`, `to_data` yields
`Ok v`, `to_handle` yields `Ok h`, and `ok` yields `Ok (v, h)`; on
`Bad e` all three yield `Err e`. All six are direct case analyses on the
state — no capability is consulted, so no I/O is performed. -/
theorem extraction_spec {A T : Type} (v : A) (h : T) (e : IoError) :
    Burrito.to_data (⟨.Good v h⟩ : Burrito A T) = .ok v
    ∧ Burrito.to_handle (⟨.Good v h⟩ : Burrito A T) = .ok h
    ∧ Burrito.ok (⟨.Good v h⟩ : Burrito A T) = .ok (v, h)
    ∧ Burrito.to_data (⟨.Bad e⟩ : Burrito A T) = .error e
    ∧ Burrito.to_handle (⟨.Bad e⟩ : Burrito A T) = .error e
    ∧ Burrito.ok (⟨.Bad e⟩ : Burrito A T) = .error e :=
  ⟨rfl, rfl, rfl, rfl, rfl, rfl⟩

/-- C5. Recovery combinators: `or` returns the alternative exactly when
the receiver is `Bad` and passes a `Good` receiver through unchanged;
`or_else` applies `f` to the carried error exactly when the receiver is
`Bad e`, and on a `Good` receiver returns it unchanged for every `f`, so
`f` is never consulted there. -/
theorem or_or_else_spec {A T : Type} (v : A) (h : T) (e : IoError)
    (alt : Burrito A T) (f g : IoError → Burrito A T) :
    Burrito.or (⟨.Bad e⟩ : Burrito A T) alt = alt
    ∧ Burrito.or (⟨.Good v h⟩ : Burrito A T) alt = ⟨.Good v h⟩
    ∧ Burrito.or_else (⟨.Bad e⟩ : Burrito A T) f = f e
    ∧ Burrito.or_else (⟨.Good v h⟩ : Burrito A T) f = ⟨.Good v h⟩
    ∧ Burrito.or_else (⟨.Good v h⟩ : Burrito A T) f
        = Burrito.or_else (⟨.Good v h⟩ : Burrito A T) g :=
  ⟨rfl, rfl, rfl, rfl, rfl⟩

/-- C6. `and`: a `Good` receiver is discarded (value and handle both) and
the alternative is returned; a `Bad e` receiver yields `Bad e` at the
alternative's type. The alternative is a plain argument of the function —
an already-constructed `Burrito B U` value, not a thunk — so whatever
expression produced it was evaluated before `and` ran, regardless of the
receiver's state (Rust's by-value call semantics, mirrored by the
signature here). -/
theorem and_spec {A B T U : Type} (v : A) (h : T) (e : IoError)
    (alt : Burrito B U) :
    Burrito.and (⟨.Good v h⟩ : Burrito A T) alt = alt
    ∧ Burrito.and (⟨.Bad e⟩ : Burrito A T) alt = ⟨.Bad e⟩ :=
  ⟨rfl, rfl⟩

/-- C7. Terminal `split`/`lines`: they consume the wrapper and return a
plain result — on `Good` the `Ok` of the delimiter-split sequence built
from the handle by the underlying iterator, on `Bad e` the error `e`
directly instead of a sequence. -/
theorem split_lines_spec {A T : Type} (bc : BufReadCap T) (byte : Nat)
    (v : A) (h : T) (e : IoError) :
    Burrito.split bc byte (⟨.Good v h⟩ : Burrito A T) = .ok (bc.splitImpl h byte)
    ∧ Burrito.lines bc (⟨.Good v h⟩ : Burrito A T) = .ok (bc.linesImpl h)
    ∧ Burrito.split bc byte (⟨.Bad e⟩ : Burrito A T) = .error e
    ∧ Burrito.lines bc (⟨.Bad e⟩ : Burrito A T) = .error e :=
  ⟨rfl, rfl, rfl, rfl⟩

/-- C8. `consume(amt)` cannot fail: on every `Good(v, h)` wrapper it
returns `Good` with the unit value and the handle with `amt` bytes of its
internal buffer marked consumed — `consumeImpl` is total buffer
bookkeeping, not a fallible I/O call, exactly as Rust's
`fn consume(&mut self, amt: usize)` returns `()` — so the result's
`is_good` is always `true`: a `Good` wrapper never transitions to `Bad`
through `consume`. -/
theorem consume_spec {A T : Type} (bc : BufReadCap T) (amt : Nat)
    (v : A) (h : T) :
    Burrito.consume bc amt (⟨.Good v h⟩ : Burrito A T)
      = ⟨.Good () (bc.consumeImpl h amt)⟩
    ∧ (Burrito.consume bc amt (⟨.Good v h⟩ : Burrito A T)).is_good = true :=
  ⟨rfl, rfl⟩

/-- C9. Path-based construction for the file handle type: `from_path`
assembles open options with exactly the read, write and create flags
enabled (append and truncate stay off) and hands them with the path to the
platform `open`; an `Ok` handle becomes the initial `Good` wrapper with
the unit value, and any failure of the open becomes the wrapper's initial
`Bad` carrying that error. -/
theorem from_path_spec {FileT : Type}
    (fs : OpenOptions → String → Except IoError FileT) (path : String) :
    ((OpenOptions.new.read true).write true).create true
      = { readFlag := true, writeFlag := true, appendFlag := false,
          truncateFlag := false, createFlag := true }
    ∧ FsFile.from_path fs path
        = fs { readFlag := true, writeFlag := true, appendFlag := false,
               truncateFlag := false, createFlag := true } path
    ∧ (∀ f : FileT, FsFile.from_path fs path = .ok f →
        Burrito.from_path (FsFile.from_path fs) path = ⟨.Good () f⟩)
    ∧ (∀ e : IoError, FsFile.from_path fs path = .error e →
        Burrito.from_path (FsFile.from_path fs) path = ⟨.Bad e⟩) := by
  refine ⟨rfl, rfl, ?_, ?_⟩
  · intro f hf
    simp [Burrito.from_path, hf]
  · intro e he
    simp [Burrito.from_path, he]

/-- C9 witness: against a filesystem whose open always succeeds with
handle `0`, `from_path` yields the initial `Good` wrapper with the unit
value around that handle. -/
theorem from_path_spec_witness :
    Burrito.from_path (FsFile.from_path (fun _ _ => (.ok 0 : Except IoError Nat))) "p"
      = ⟨.Good () 0⟩ :=
  (from_path_spec (fun _ _ => (.ok 0 : Except IoError Nat)) "p").2.2.1 0 rfl

/-- C10. The default construction entry point `burrito()` always yields a
wrapper in the `Good` state with the unit value around the freshly bundled
stdin/stdout/stderr triple — it is literally
`Burrito(Good((), RealWorld::default()))`, so it can never be `Bad`,
performs no I/O (bundling the process streams just hands out their
handles), and `is_good` holds on every freshly created default wrapper. -/
theorem burrito_default_spec :
    burrito = ⟨.Good () RealWorld.default⟩
    ∧ burrito.is_good = true
    ∧ burrito.is_bad = false
    ∧ Burrito.default = ⟨.Good () RealWorld.default⟩ :=
  ⟨rfl, rfl, rfl, rfl⟩
